import Mathlib

/- Verification development for the WebEcoMeter core: the URL validator, the
resource-weight aggregator, the carbon-conversion calculator and the metrics
store, shallowly embedded from the Python sources (carbon_calc.py, models.py,
main.py).  Real-number arithmetic of the source is modelled exactly over ℚ;
network and database effects are modelled by explicit outcome functions and
explicit state passing. -/

namespace WebEcoMeter

/-! ## Carbon conversion calculator (carbon_calc.py, lines 6-9 and 61-115) -/

/-- Constant from carbon_calc.py line 7: kilowatt-hours per gigabyte. -/
def KWH_PER_GB : ℚ := 1805 / 1000

/-- Constant from carbon_calc.py line 8: grams of CO2 per kilowatt-hour. -/
def CARBON_PER_KWH : ℚ := 442

/-- Constant from carbon_calc.py line 9: kg of CO2 absorbed per tree per year. -/
def TREE_ABSORPTION : ℚ := 21

/-- Round-half-to-even to an integer, the tie-breaking rule of the round
builtin used by carbon_calc.py (exact over ℚ). -/
def roundHalfEven (x : ℚ) : ℤ :=
  if x - ⌊x⌋ < 1 / 2 then ⌊x⌋
  else if 1 / 2 < x - ⌊x⌋ then ⌊x⌋ + 1
  else if ⌊x⌋ % 2 = 0 then ⌊x⌋ else ⌊x⌋ + 1

/-- Rounding to two decimal places, modelling round(x, 2). -/
def round2 (x : ℚ) : ℚ := (roundHalfEven (100 * x) : ℚ) / 100

/-- The record returned by calculate_carbon_footprint (carbon_calc.py 110-115). -/
structure Metrics where
  page_size_kb : ℚ
  annual_energy_kwh : ℚ
  annual_carbon_kg : ℚ
  trees_needed : ℤ
deriving DecidableEq, Repr

/-- carbon_calc.py lines 97-115, translated step by step. -/
def calculate_carbon_footprint (page_size_kb : ℚ) (monthly_visits : ℤ) : Metrics :=
  let annual_data_transfer_gb := page_size_kb * monthly_visits * 12 / (1024 * 1024)
  let annual_energy_kwh := annual_data_transfer_gb * KWH_PER_GB
  let annual_carbon_g := annual_energy_kwh * CARBON_PER_KWH
  let annual_carbon_kg := annual_carbon_g / 1000
  let trees_needed := annual_carbon_kg / TREE_ABSORPTION
  { page_size_kb := round2 page_size_kb
    annual_energy_kwh := round2 annual_energy_kwh
    annual_carbon_kg := round2 annual_carbon_kg
    trees_needed := ⌈trees_needed⌉ }

/-! ## URL parsing and validation (carbon_calc.py, lines 11-17)

validate_url calls urllib.parse.urlparse and accepts the input iff both the
scheme and the netloc components are non-empty; the bare except turns any
ValueError raised by the parser into False.  We embed the behaviour of the
urlsplit of current CPython that determines this result: tab, CR and LF
characters are removed first; a scheme is a leading run of letters, digits
and the characters plus, minus, dot, beginning with a letter and terminated
by a colon; a netloc follows a double slash and extends to the next slash,
question mark or hash; a netloc containing an unmatched square bracket
raises, and a bracketed host must be a valid IPv6 address (optionally with a
percent-separated zone) or an IPvFuture literal, else the parser raises.
The NFKC confusable-delimiter check of CPython is reachable only for
non-ASCII netlocs and is outside the model, so the exact characterization
below is stated for ASCII inputs. -/

/-- The characters urlsplit removes from the input before parsing. -/
def stripUnsafe (l : List Char) : List Char :=
  l.filter (fun c => !(c = '\t' || c = '\r' || c = '\n'))

/-- Split a character list on a separator character (str.split). -/
def splitOnChar (sep : Char) : List Char → List (List Char)
  | [] => [[]]
  | c :: cs =>
    let r := splitOnChar sep cs
    if c = sep then [] :: r
    else
      match r with
      | [] => [[c]]
      | g :: gs => (c :: g) :: gs

def hexDigitList : List Char := "0123456789abcdefABCDEF".data

def isHexDigitCh (c : Char) : Bool := hexDigitList.contains c

/-- A valid hextet of an IPv6 address: one to four hex digits. -/
def validHextet (p : List Char) : Bool :=
  !p.isEmpty && decide (p.length ≤ 4) && p.all isHexDigitCh

def digitsToNat (p : List Char) : Nat := p.foldl (fun a c => a * 10 + (c.toNat - 48)) 0

/-- A valid IPv4 octet: one to three decimal digits, no leading zero, value
at most 255 (ipaddress._parse_octet). -/
def validOctet (p : List Char) : Bool :=
  !p.isEmpty && p.all Char.isDigit && decide (p.length ≤ 3)
    && (match p with
        | '0' :: rest => rest.isEmpty
        | _ => true)
    && decide (digitsToNat p ≤ 255)

/-- A valid dotted-quad IPv4 address (ipaddress.IPv4Address). -/
def validIPv4 (s : List Char) : Bool :=
  let os := splitOnChar '.' s
  decide (os.length = 4) && os.all validOctet

/-- The colon-separated parts strictly between the first and the last one. -/
def interiorParts (ps : List (List Char)) : List (List Char) := (ps.drop 1).dropLast

def countEmpties (ps : List (List Char)) : Nat := (ps.filter (fun p => p.isEmpty)).length

/-- Structural validity of the colon-split parts of an IPv6 address after any
embedded IPv4 suffix has been replaced by two hextets, following
ipaddress.IPv6Address._ip_int_from_string: at most nine parts; at most one
empty interior part (the double-colon compression); an empty first or last
part only next to the compression; the remaining parts are valid hextets and
the compression stands for at least one group. -/
def validIPv6Core (ps : List (List Char)) : Bool :=
  decide (ps.length ≤ 9) &&
  (let inter := interiorParts ps
   let ne := countEmpties inter
   if 2 ≤ ne then false
   else if ne = 1 then
     let k := 1 + inter.findIdx (fun p => p.isEmpty)
     let n := ps.length
     let headEmpty := (ps.headD [' ']).isEmpty
     let lastEmpty := (ps.getLastD [' ']).isEmpty
     (if headEmpty then decide (k = 1) else true) &&
     (if lastEmpty then decide (k = n - 2) else true) &&
     (let hi := if headEmpty then ([] : List (List Char)) else ps.take k
      let lo := if lastEmpty then ([] : List (List Char)) else ps.drop (k + 1)
      decide (hi.length + lo.length ≤ 7) && hi.all validHextet && lo.all validHextet)
   else
     decide (ps.length = 8) && ps.all validHextet)

/-- A valid textual IPv6 address without a zone suffix. -/
def validIPv6NoZone (s : List Char) : Bool :=
  let parts := splitOnChar ':' s
  if parts.length < 3 then false
  else
    let last := parts.getLastD []
    if last.contains '.' then
      validIPv4 last && validIPv6Core (parts.dropLast ++ [['0'], ['0']])
    else validIPv6Core parts

/-- A valid textual IPv6 address, optionally followed by a percent sign and a
non-empty zone identifier free of further percent signs. -/
def validIPv6 (s : List Char) : Bool :=
  let addr := s.takeWhile (fun c => !(c = '%'))
  let rest := s.drop addr.length
  match rest with
  | [] => validIPv6NoZone s
  | _ :: zone => !zone.isEmpty && !zone.contains '%' && validIPv6NoZone addr

/-- The IPvFuture shape accepted by urllib: the letter v, one or more hex
digits, a dot, then at least one further character. -/
def ipvFutureOk (rest : List Char) : Bool :=
  let hexRun := rest.takeWhile isHexDigitCh
  let after := rest.drop hexRun.length
  !hexRun.isEmpty &&
    (match after with
     | '.' :: tl => !tl.isEmpty
     | _ => false)

/-- urllib.parse._check_bracketed_host: a bracketed host starting with v must
be an IPvFuture literal; any other bracketed host must be an IPv6 address (a
dotted-quad IPv4 address in brackets also raises). -/
def checkBracketedHost (h : List Char) : Bool :=
  match h with
  | 'v' :: rest => ipvFutureOk rest
  | _ => validIPv6 h

/-- The bracketed portion of a netloc: after the first opening bracket, up to
the first closing bracket (netloc.partition of the two bracket characters). -/
def bracketedOf (nl : List Char) : List Char :=
  ((nl.dropWhile (fun c => !(c = '['))).drop 1).takeWhile (fun c => !(c = ']'))

/-- Characters allowed in a URL scheme after the leading letter. -/
def isSchemeChar (c : Char) : Bool :=
  c.isAlphanum || c = '+' || c = '-' || c = '.'

/-- Scan for a colon-terminated scheme; returns the scheme characters and the
remainder, or none when no well-formed scheme is present. -/
def splitSchemeAux : List Char → List Char → Option (List Char × List Char)
  | _, [] => none
  | acc, c :: cs =>
    if c = ':' then
      if acc.isEmpty then none else some (acc.reverse, cs)
    else if isSchemeChar c then splitSchemeAux (c :: acc) cs
    else none

/-- The two components of urlparse that validate_url inspects, plus the
unconsumed remainder. -/
structure UrlParts where
  scheme : String
  netloc : String
  rest : String
deriving DecidableEq, Repr

/-- Whether a character terminates the netloc component. -/
def endsNetloc (c : Char) : Bool :=
  c = '/' || c = '?' || c = '#'

/-- Embedding of the scheme/netloc extraction of urllib.parse.urlparse of
current CPython, including its raising paths: none models a raised
ValueError (unmatched bracket in the netloc, or an invalid bracketed host). -/
def urlparse (url : String) : Option UrlParts :=
  let cs := stripUnsafe url.data
  let split :=
    match cs with
    | c :: _ => if c.isAlpha then splitSchemeAux [] cs else none
    | [] => none
  let schemeChars := (split.map Prod.fst).getD []
  let afterScheme := (split.map Prod.snd).getD cs
  match afterScheme with
  | '/' :: '/' :: r =>
    let nl := r.takeWhile (fun c => !endsNetloc c)
    let hasOpen := nl.contains '['
    let hasClose := nl.contains ']'
    if hasOpen != hasClose then none
    else if hasOpen && !checkBracketedHost (bracketedOf nl) then none
    else some
      { scheme := ⟨schemeChars.map Char.toLower⟩
        netloc := ⟨nl⟩
        rest := ⟨r.drop nl.length⟩ }
  | r =>
    some
      { scheme := ⟨schemeChars.map Char.toLower⟩
        netloc := ""
        rest := ⟨r⟩ }

/-- Outcome of requests.get on a sub-resource. -/
inductive SubFetchOutcome where
  | response (status : Nat) (contentLength : Option Nat)
  | exn
deriving DecidableEq, Repr

/-- Outcome of requests.get on the root document. -/
inductive RootFetchOutcome where
  | response (status : Nat) (contentLen : Nat) (resolvedUrl : String) (refs : List String)
  | exn (msg : String)
deriving DecidableEq, Repr

/-- Boolean list-prefix test (kernel-reducible). -/
def listStarts : List Char → List Char → Bool
  | [], _ => true
  | _ :: _, [] => false
  | c :: cs, d :: ds => c == d && listStarts cs ds

/-- Whether the string s starts with p. -/
def strStarts (s p : String) : Bool := listStarts p.data s.data

/-- Python str.rstrip with the slash character: drop trailing slashes. -/
def rstripSlash (s : String) : String :=
  ⟨(s.data.reverse.dropWhile (fun c => c = '/')).reverse⟩

def httpPre : String := "http://"

def httpsPre : String := "https://"

def slashStr : String := "/"

/-- carbon_calc.py lines 47-50: a reference that is not absolute is prefixed
with a slash when it lacks one and appended to the root response URL with
trailing slashes stripped. -/
def resolve_ref (baseUrl src : String) : String :=
  if strStarts src httpPre || strStarts src httpsPre then src
  else
    let s := if strStarts src slashStr then src else slashStr ++ src
    rstripSlash baseUrl ++ s

/-- Bytes a discovered reference contributes to the running total: a raised
fetch contributes nothing; a returned response contributes its reported
content length, defaulting to zero (carbon_calc.py lines 51-55). -/
def subResourceBytes (fetch : String → SubFetchOutcome) (baseUrl src : String) : Nat :=
  match fetch (resolve_ref baseUrl src) with
  | SubFetchOutcome.response _ cl => cl.getD 0
  | SubFetchOutcome.exn => 0

def fetchErrPre : String := "Error fetching page size: "

/-- Message of the HTTPError raised by raise_for_status. -/
def httpStatusMsg (status : Nat) : String := toString status ++ " Error"

/-- Whether raise_for_status raises for this status code. -/
def isErrorStatus (status : Nat) : Bool := 400 ≤ status && status < 600

/-- carbon_calc.py lines 35-59: fetch the root (raise_for_status makes a
4xx/5xx root fatal), then add the contribution of each discovered reference,
skipping only fetches that raise; return the total divided by 1024. -/
def get_page_size (root : RootFetchOutcome) (fetch : String → SubFetchOutcome) :
    Except String ℚ :=
  match root with
  | RootFetchOutcome.exn msg => Except.error (fetchErrPre ++ msg)
  | RootFetchOutcome.response status contentLen resolvedUrl refs =>
    if isErrorStatus status then Except.error (fetchErrPre ++ httpStatusMsg status)
    else
      let total := refs.foldl
        (fun acc src =>
          match fetch (resolve_ref resolvedUrl src) with
          | SubFetchOutcome.response _ cl => acc + cl.getD 0
          | SubFetchOutcome.exn => acc)
        contentLen
      Except.ok ((total : ℚ) / 1024)

/-- Origin (scheme plus netloc) of a URL, via the embedded urlparse. -/
def originOf (u : String) : String :=
  let p := (urlparse u).getD { scheme := "", netloc := "", rest := "" }
  p.scheme ++ "://" ++ p.netloc

/-- Resolution as claim C4 describes it: non-absolute references are joined
to the origin of the resolved URL of the root document. -/
def resolve_ref_origin (baseUrl src : String) : String :=
  if strStarts src httpPre || strStarts src httpsPre then src
  else
    let s := if strStarts src slashStr then src else slashStr ++ src
    originOf baseUrl ++ s

/-- Modelled from the amended claim: a non-absolute reference is prefixed
with a slash when it lacks one and appended to the whole resolved root URL
with trailing slashes removed. -/
def resolve_ref_amended (baseUrl src : String) : String :=
  rstripSlash baseUrl ++ (if strStarts src slashStr then src else slashStr ++ src)

/-! ## Metrics store (models.py, lines 45-100) -/

/-- One row of the website_metrics table (models.py lines 45-56); timestamps
are modelled as natural numbers. -/
structure Measurement where
  url : String
  timestamp : Nat
  page_size_kb : ℚ
  monthly_visits : ℤ
  annual_energy_kwh : ℚ
  annual_carbon_kg : ℚ
  trees_needed : ℤ
deriving DecidableEq, Repr

/-- Observable database events of create_measurement. -/
inductive DbEvent where
  | attempt (i : Nat)
  | rollback
  | sleep (secs : Nat)
deriving DecidableEq, Repr

/-- models.py line 61. -/
def max_retries : Nat := 3

/-- models.py line 62. -/
def retry_delay : Nat := 1

/-- Outcome of one attempt of the try block of create_measurement
(models.py lines 65-77).  The block runs db.add, db.commit, db.refresh in
order, so a raise can happen before the commit takes effect (in add or
commit: nothing is persisted and the rollback undoes the open transaction)
or after it (in refresh: the row is already committed and the rollback
cannot remove it). -/
inductive AttemptOutcome where
  | ok
  | failBeforeCommit (e : String)
  | failAfterCommit (e : String)
deriving DecidableEq, Repr

/-- The message an attempt raises, or none when it returns. -/
def outcomeErr : AttemptOutcome → Option String
  | AttemptOutcome.ok => none
  | AttemptOutcome.failBeforeCommit e => some e
  | AttemptOutcome.failAfterCommit e => some e

/-- models.py lines 64-82, by remaining attempts: a returning attempt has
committed the row; a failing attempt is followed by db.rollback, which
restores the rows only when the raise came before the commit, and the last
attempt re-raises with the operation name and the cause while the earlier
ones sleep and retry.  The fuel zero case is unreachable from
create_measurement since the last attempt always returns or raises. -/
def createFrom (outcome : Nat → AttemptOutcome) (m : Measurement)
    (rows : List Measurement) : Nat → List DbEvent × List Measurement × Except String Measurement
  | 0 => ([], rows, Except.error "")
  | remaining + 1 =>
    let attempt := max_retries - (remaining + 1)
    match outcome attempt with
    | AttemptOutcome.ok => ([DbEvent.attempt attempt], rows ++ [m], Except.ok m)
    | AttemptOutcome.failBeforeCommit e =>
      if remaining = 0 then
        ([DbEvent.attempt attempt, DbEvent.rollback], rows,
          Except.error ("Failed to create measurement after " ++ toString max_retries
            ++ " attempts: " ++ e))
      else
        let r := createFrom outcome m rows remaining
        (DbEvent.attempt attempt :: DbEvent.rollback :: DbEvent.sleep retry_delay :: r.1,
          r.2.1, r.2.2)
    | AttemptOutcome.failAfterCommit e =>
      if remaining = 0 then
        ([DbEvent.attempt attempt, DbEvent.rollback], rows ++ [m],
          Except.error ("Failed to create measurement after " ++ toString max_retries
            ++ " attempts: " ++ e))
      else
        let r := createFrom outcome m (rows ++ [m]) remaining
        (DbEvent.attempt attempt :: DbEvent.rollback :: DbEvent.sleep retry_delay :: r.1,
          r.2.1, r.2.2)

/-- models.py lines 58-82: run the retry loop over all attempts. -/
def create_measurement (outcome : Nat → AttemptOutcome) (m : Measurement)
    (rows : List Measurement) : List DbEvent × List Measurement × Except String Measurement :=
  createFrom outcome m rows max_retries

/-- Number of database attempts in a trace. -/
def attemptCount (evs : List DbEvent) : Nat :=
  (evs.filter (fun e => match e with | DbEvent.attempt _ => true | _ => false)).length

/-- Every failing attempt in the trace is immediately followed by a rollback
event. -/
def rollbacksImmediate (outcome : Nat → AttemptOutcome) : List DbEvent → Bool
  | [] => true
  | [DbEvent.attempt i] => (outcomeErr (outcome i)).isNone
  | DbEvent.attempt i :: e2 :: rest =>
    match outcomeErr (outcome i), e2 with
    | none, _ => rollbacksImmediate outcome (e2 :: rest)
    | some _, DbEvent.rollback => rollbacksImmediate outcome rest
    | some _, _ => false
  | _ :: rest => rollbacksImmediate outcome rest

/-- Descending-timestamp comparison used to model ORDER BY timestamp DESC. -/
def tsGe (a b : Measurement) : Prop := b.timestamp ≤ a.timestamp

instance : DecidableRel tsGe := fun a b => Nat.decLe b.timestamp a.timestamp

instance : IsTotal Measurement tsGe := ⟨fun a b => le_total b.timestamp a.timestamp⟩

instance : IsTrans Measurement tsGe := ⟨fun _ _ _ h1 h2 => le_trans h2 h1⟩

/-- models.py lines 84-100: the query of get_history — filter the table on
url equality, order by timestamp descending, take at most the limit.  The
surrounding retry loop returns the first successful evaluation of this query
and does not alter its value. -/
def get_history (rows : List Measurement) (url : String) (limit : Nat) : List Measurement :=
  (List.insertionSort tsGe (rows.filter (fun m => m.url == url))).take limit

/-! ## The measurement pipeline (main.py, lines 56-70 and 167-168) -/

def analyzeErrPre : String := "Error analyzing website: "

/-- The row create_measurement builds from the metrics dict (models.py 66-73),
with a server-assigned timestamp. -/
def mkMeasurement (u : String) (ts : Nat) (metrics : Metrics) (mv : ℤ) : Measurement :=
  { url := u
    timestamp := ts
    page_size_kb := metrics.page_size_kb
    monthly_visits := mv
    annual_energy_kwh := metrics.annual_energy_kwh
    annual_carbon_kg := metrics.annual_carbon_kg
    trees_needed := metrics.trees_needed }

/-- main.py lines 56-70 with the except clause of 167-168: get_page_size,
then calculate_carbon_footprint, then create_measurement; any raised error is
reported with its cause and ends the run. -/
def analyze_and_store (root : RootFetchOutcome) (fetch : String → SubFetchOutcome)
    (u : String) (mv : ℤ) (rows : List Measurement) (outcome : Nat → AttemptOutcome)
    (ts : Nat) : Except String Metrics × List Measurement :=
  match get_page_size root fetch with
  | Except.error e => (Except.error (analyzeErrPre ++ e), rows)
  | Except.ok ps =>
    let metrics := calculate_carbon_footprint ps mv
    let r := create_measurement outcome (mkMeasurement u ts metrics mv) rows
    match r.2.2 with
    | Except.error e => (Except.error (analyzeErrPre ++ e), r.2.1)
    | Except.ok _ => (Except.ok metrics, r.2.1)

/-! ## Concrete data used by witnesses and counterexamples -/

def exampleUrl : String := "https://example.com"

def blogUrl : String := "https://example.com/blog"

def styleRef : String := "style.css"

def blogStyleUrl : String := "https://example.com/blog/style.css"

def originStyleUrl : String := "https://example.com/style.css"

def cssRef : String := "a.css"

def downMsg : String := "db down"

def connMsg : String := "connection refused"

def mEx : Measurement :=
  { url := exampleUrl, timestamp := 5, page_size_kb := 500, monthly_visits := 10000,
    annual_energy_kwh := 103, annual_carbon_kg := 46, trees_needed := 3 }

def mEx2 : Measurement :=
  { url := exampleUrl, timestamp := 9, page_size_kb := 400, monthly_visits := 10000,
    annual_energy_kwh := 83, annual_carbon_kg := 37, trees_needed := 2 }

def mOther : Measurement :=
  { url := blogUrl, timestamp := 7, page_size_kb := 100, monthly_visits := 100,
    annual_energy_kwh := 1, annual_carbon_kg := 1, trees_needed := 1 }

def rowsEx : List Measurement := [mEx, mOther, mEx2]


/-- C1 (amended): for page_weight_kb ≥ 0 and monthly_visits > 0 the returned
annual_energy_kwh is round2 of weight times visits times 12 over 1024² times
1.805, the returned annual_carbon_kg is round2 of the unrounded energy times
442 over 1000, and trees_needed is the ceiling of the unrounded carbon mass
divided by 21. -/
theorem c1_calculator_formulas (pw : ℚ) (mv : ℤ) (hpw : 0 ≤ pw) (hmv : 0 < mv) :
    (calculate_carbon_footprint pw mv).annual_energy_kwh
        = round2 (pw * mv * 12 / (1024 * 1024) * (1805 / 1000))
      ∧ (calculate_carbon_footprint pw mv).annual_carbon_kg
        = round2 (pw * mv * 12 / (1024 * 1024) * (1805 / 1000) * 442 / 1000)
      ∧ (calculate_carbon_footprint pw mv).trees_needed
        = ⌈pw * mv * 12 / (1024 * 1024) * (1805 / 1000) * 442 / 1000 / 21⌉ := by
  refine ⟨?_, ?_, ?_⟩ <;>
    simp only [calculate_carbon_footprint, KWH_PER_GB, CARBON_PER_KWH, TREE_ABSORPTION] <;>
    congr 1 <;> ring

theorem c1_witness :
    (0 : ℚ) ≤ 500 ∧ (0 : ℤ) < 10000 ∧
      (calculate_carbon_footprint 500 10000).annual_energy_kwh
        = round2 ((500 : ℚ) * (10000 : ℤ) * 12 / (1024 * 1024) * (1805 / 1000)) :=
  ⟨by norm_num, by norm_num,
    (c1_calculator_formulas 500 10000 (by norm_num) (by norm_num)).1⟩

/-- C1 counterexample: at page_weight_kb 2300057 and monthly_visits 1 the
rounded carbon field is exactly 21 and its ceiling quotient by 21 is 1, yet
the code returns trees_needed 2 (the ceiling is taken of the unrounded carbon
mass, which lies just above 21). -/
theorem c1_counterexample :
    (0 : ℚ) ≤ 2300057 ∧ (0 : ℤ) < 1
      ∧ (calculate_carbon_footprint 2300057 1).annual_carbon_kg = 21
      ∧ (calculate_carbon_footprint 2300057 1).trees_needed = 2
      ∧ (⌈(calculate_carbon_footprint 2300057 1).annual_carbon_kg / 21⌉ : ℤ) = 1
      ∧ (calculate_carbon_footprint 2300057 1).trees_needed
          ≠ ⌈(calculate_carbon_footprint 2300057 1).annual_carbon_kg / 21⌉ := by
  have hc : (calculate_carbon_footprint 2300057 1).annual_carbon_kg = 21 := by
    rw [calculate_carbon_footprint]
    simp only [KWH_PER_GB, CARBON_PER_KWH, TREE_ABSORPTION, round2, roundHalfEven]
    norm_num
  have ht : (calculate_carbon_footprint 2300057 1).trees_needed = 2 := by
    rw [calculate_carbon_footprint]
    simp only [KWH_PER_GB, CARBON_PER_KWH, TREE_ABSORPTION]
    norm_num [Int.ceil_eq_iff]
  refine ⟨by norm_num, by norm_num, hc, ht, ?_, ?_⟩
  · rw [hc]; norm_num
  · rw [hc, ht]; norm_num

/-- C2 counterexample: at page_weight_kb 500 and monthly_visits 10000 the
code yields annual_carbon_kg 45.65 and trees_needed 3, not the claimed
annual_carbon_kg of about 0.0457 and trees_needed 1. -/
theorem c2_counterexample :
    (calculate_carbon_footprint 500 10000).annual_carbon_kg = 4565 / 100
      ∧ (calculate_carbon_footprint 500 10000).trees_needed = 3
      ∧ (calculate_carbon_footprint 500 10000).trees_needed ≠ 1 := by
  have h : calculate_carbon_footprint 500 10000 =
      { page_size_kb := 500, annual_energy_kwh := 10328 / 100,
        annual_carbon_kg := 4565 / 100, trees_needed := 3 } := by
    rw [calculate_carbon_footprint]
    simp only [KWH_PER_GB, CARBON_PER_KWH, TREE_ABSORPTION, round2, roundHalfEven]
    norm_num [Int.ceil_eq_iff]
  rw [h]
  norm_num

/-- C2 (amended): for page_weight_kb 500 and monthly_visits 10000 the annual
data transfer is 234375/4096 GB (about 57.2205), and the returned record has
annual_energy_kwh 103.28, annual_carbon_kg 45.65 and trees_needed 3. -/
theorem c2_concrete_scenario :
    (500 : ℚ) * 10000 * 12 / (1024 * 1024) = 234375 / 4096
      ∧ calculate_carbon_footprint 500 10000 =
        { page_size_kb := 500, annual_energy_kwh := 10328 / 100,
          annual_carbon_kg := 4565 / 100, trees_needed := 3 } := by
  constructor
  · norm_num
  · rw [calculate_carbon_footprint]
    simp only [KWH_PER_GB, CARBON_PER_KWH, TREE_ABSORPTION, round2, roundHalfEven]
    norm_num [Int.ceil_eq_iff]

/-- C9: the calculator is a pure deterministic function of its two inputs:
calls with equal inputs return equal records. -/
theorem c9_calculator_deterministic (pw1 pw2 : ℚ) (mv1 mv2 : ℤ)
    (hp : pw1 = pw2) (hm : mv1 = mv2) :
    calculate_carbon_footprint pw1 mv1 = calculate_carbon_footprint pw2 mv2 := by
  rw [hp, hm]

theorem c9_witness :
    calculate_carbon_footprint 500 10000 = calculate_carbon_footprint 500 10000 :=
  c9_calculator_deterministic 500 500 10000 10000 rfl rfl

/-- C10: at page_weight_kb 0 and any positive monthly_visits the emissions
are zero and trees_needed is 0, so the field is not always at least 1. -/
theorem c10_zero_weight_zero_trees (mv : ℤ) (hmv : 0 < mv) :
    (calculate_carbon_footprint 0 mv).trees_needed = 0
      ∧ ¬(1 ≤ (calculate_carbon_footprint 0 mv).trees_needed) := by
  have h : (calculate_carbon_footprint 0 mv).trees_needed = 0 := by
    simp only [calculate_carbon_footprint, KWH_PER_GB, CARBON_PER_KWH, TREE_ABSORPTION]
    norm_num
  exact ⟨h, by rw [h]; norm_num⟩

theorem c10_witness :
    (calculate_carbon_footprint 0 10000).trees_needed = 0
      ∧ ¬(1 ≤ (calculate_carbon_footprint 0 10000).trees_needed) :=
  c10_zero_weight_zero_trees 10000 (by norm_num)


/-- The accumulation loop of get_page_size adds the per-reference
contribution of each discovered reference to the initial total. -/
theorem foldl_add_subResourceBytes (fetch : String → SubFetchOutcome) (rurl : String)
    (refs : List String) (init : Nat) :
    refs.foldl
        (fun acc src =>
          match fetch (resolve_ref rurl src) with
          | SubFetchOutcome.response _ cl => acc + cl.getD 0
          | SubFetchOutcome.exn => acc)
        init
      = init + (refs.map (subResourceBytes fetch rurl)).sum := by
  induction refs generalizing init with
  | nil => simp
  | cons a l ih =>
    simp only [List.foldl_cons, List.map_cons, List.sum_cons]
    cases h : fetch (resolve_ref rurl a) with
    | response s cl =>
      rw [ih]
      simp [subResourceBytes, h, Nat.add_assoc]
    | exn =>
      rw [ih]
      simp [subResourceBytes, h]

/-- C3 (amended): with a successful root fetch the measurement always
succeeds and returns the root bytes plus, for every discovered reference, its
reported content length when its fetch returns a response (of any status) and
nothing when its fetch raises (network error or timeout). -/
theorem c3_subresource_accumulation (status contentLen : Nat) (rurl : String)
    (refs : List String) (fetch : String → SubFetchOutcome) (hs : status < 400) :
    get_page_size (RootFetchOutcome.response status contentLen rurl refs) fetch
        = Except.ok (((contentLen + (refs.map (subResourceBytes fetch rurl)).sum : ℕ) : ℚ) / 1024)
      ∧ ∀ src, fetch (resolve_ref rurl src) = SubFetchOutcome.exn →
          subResourceBytes fetch rurl src = 0 := by
  have hst : isErrorStatus status = false := by
    simp only [isErrorStatus, Bool.and_eq_false_iff, decide_eq_false_iff_not]
    omega
  constructor
  · simp only [get_page_size, hst, Bool.false_eq_true, if_false]
    rw [foldl_add_subResourceBytes]
  · intro src h
    simp [subResourceBytes, h]

theorem c3_witness :
    get_page_size (RootFetchOutcome.response 200 1000 exampleUrl [cssRef])
        (fun _ => SubFetchOutcome.exn)
      = Except.ok ((((1000 : ℕ) + ([cssRef].map (subResourceBytes (fun _ => SubFetchOutcome.exn)
          exampleUrl)).sum : ℕ) : ℚ) / 1024) :=
  (c3_subresource_accumulation 200 1000 exampleUrl [cssRef] (fun _ => SubFetchOutcome.exn)
    (by norm_num)).1

/-- C3 counterexample: one sub-resource answers with status 404 (a
non-success status) and content length 100; the claim says it contributes
nothing, so the weight should be 1000/1024 KB, but the code adds the 100
bytes and returns 1100/1024 KB (there is no raise_for_status on
sub-resources). -/
theorem c3_counterexample :
    get_page_size (RootFetchOutcome.response 200 1000 exampleUrl [cssRef])
        (fun _ => SubFetchOutcome.response 404 (some 100))
      = Except.ok ((1100 : ℚ) / 1024)
      ∧ ((1100 : ℚ) / 1024) ≠ (1000 : ℚ) / 1024 := by
  constructor
  · simp [get_page_size, isErrorStatus]
  · norm_num

/-- C4 counterexample: for the root resolved URL https://example.com/blog the
code resolves style.css to https://example.com/blog/style.css, while joining
to the origin as the claim states would give https://example.com/style.css;
the fetched URL is the former, as the aggregation run shows. -/
theorem c4_counterexample :
    resolve_ref blogUrl styleRef = blogStyleUrl
      ∧ resolve_ref_origin blogUrl styleRef = originStyleUrl
      ∧ blogStyleUrl ≠ originStyleUrl
      ∧ get_page_size (RootFetchOutcome.response 200 1000 blogUrl [styleRef])
          (fun u => if u == blogStyleUrl then SubFetchOutcome.response 200 (some 100)
            else SubFetchOutcome.exn)
        = Except.ok ((1100 : ℚ) / 1024) := by
  have hre : resolve_ref blogUrl styleRef = blogStyleUrl := by decide
  refine ⟨hre, by decide, by decide, ?_⟩
  simp [get_page_size, isErrorStatus, hre]

/-- C4 (amended): every discovered reference that does not start with
http:// or https:// is prefixed with a slash when it lacks one and appended
to the whole resolved URL of the root document, stripped of trailing slashes. -/
theorem c4_relative_resolution (base src : String)
    (h : (strStarts src httpPre || strStarts src httpsPre) = false) :
    resolve_ref base src = resolve_ref_amended base src := by
  simp [resolve_ref, resolve_ref_amended, h]

theorem c4_witness :
    (strStarts styleRef httpPre || strStarts styleRef httpsPre) = false
      ∧ resolve_ref blogUrl styleRef = resolve_ref_amended blogUrl styleRef :=
  ⟨by decide, c4_relative_resolution blogUrl styleRef (by decide)⟩

/-- C5: if the root fetch raises, or returns a status raise_for_status
rejects, the whole run fails with an error carrying the cause, no metrics are
returned and the stored rows are unchanged (no Measurement is produced or
persisted). -/
theorem c5_root_failure_aborts (fetch : String → SubFetchOutcome) (u : String) (mv : ℤ)
    (rows : List Measurement) (outcome : Nat → AttemptOutcome) (ts : Nat) :
    (∀ msg, analyze_and_store (RootFetchOutcome.exn msg) fetch u mv rows outcome ts
        = (Except.error (analyzeErrPre ++ (fetchErrPre ++ msg)), rows))
      ∧ ∀ status contentLen rurl refs, isErrorStatus status = true →
          analyze_and_store (RootFetchOutcome.response status contentLen rurl refs) fetch u mv
              rows outcome ts
            = (Except.error (analyzeErrPre ++ (fetchErrPre ++ httpStatusMsg status)), rows) := by
  constructor
  · intro msg
    simp [analyze_and_store, get_page_size]
  · intro status contentLen rurl refs h
    simp [analyze_and_store, get_page_size, h]

theorem c5_witness :
    analyze_and_store (RootFetchOutcome.exn connMsg) (fun _ => SubFetchOutcome.exn)
        exampleUrl 10000 [] (fun _ => AttemptOutcome.ok) 0
      = (Except.error (analyzeErrPre ++ (fetchErrPre ++ connMsg)), [])
      ∧ analyze_and_store (RootFetchOutcome.response 404 0 exampleUrl [])
          (fun _ => SubFetchOutcome.exn) exampleUrl 10000 [] (fun _ => AttemptOutcome.ok) 0
        = (Except.error (analyzeErrPre ++ (fetchErrPre ++ httpStatusMsg 404)), []) :=
  ⟨(c5_root_failure_aborts (fun _ => SubFetchOutcome.exn) exampleUrl 10000 []
      (fun _ => AttemptOutcome.ok) 0).1 connMsg,
    (c5_root_failure_aborts (fun _ => SubFetchOutcome.exn) exampleUrl 10000 []
      (fun _ => AttemptOutcome.ok) 0).2 404 0 exampleUrl [] (by decide)⟩


/-- C7 (amended): create_measurement makes at most three attempts, every
failing attempt is immediately followed by a rollback, every sleep between
attempts has the fixed delay, and when all three attempts fail the surfaced
error names the operation and the last cause; the stored rows are unchanged
when every failure is raised before the commit (in add or commit), while a
failure raised after the commit (in refresh) leaves that attempt's committed
row persisted. -/
theorem c7_create_measurement_retries (outcome : Nat → AttemptOutcome) (m : Measurement)
    (rows : List Measurement) :
    attemptCount (create_measurement outcome m rows).1 ≤ max_retries
      ∧ rollbacksImmediate outcome (create_measurement outcome m rows).1 = true
      ∧ (∀ d, DbEvent.sleep d ∈ (create_measurement outcome m rows).1 → d = retry_delay)
      ∧ (∀ e0 e1 e2, outcomeErr (outcome 0) = some e0 → outcomeErr (outcome 1) = some e1 →
          outcomeErr (outcome 2) = some e2 →
            (create_measurement outcome m rows).2.2
              = Except.error ("Failed to create measurement after " ++ toString max_retries
                  ++ " attempts: " ++ e2))
      ∧ (∀ e0 e1 e2, outcome 0 = AttemptOutcome.failBeforeCommit e0 →
          outcome 1 = AttemptOutcome.failBeforeCommit e1 →
          outcome 2 = AttemptOutcome.failBeforeCommit e2 →
            (create_measurement outcome m rows).2.1 = rows)
      ∧ (∀ e0, outcome 0 = AttemptOutcome.failAfterCommit e0 →
          m ∈ (create_measurement outcome m rows).2.1) := by
  rcases h0 : outcome 0 with _ | e0 | e0 <;> rcases h1 : outcome 1 with _ | e1 | e1 <;>
    rcases h2 : outcome 2 with _ | e2 | e2 <;>
    simp [create_measurement, createFrom, attemptCount, rollbacksImmediate, outcomeErr,
      max_retries, retry_delay, h0, h1, h2]

theorem c7_witness :
    attemptCount (create_measurement (fun _ => AttemptOutcome.failBeforeCommit downMsg)
        mEx []).1 ≤ max_retries
      ∧ rollbacksImmediate (fun _ => AttemptOutcome.failBeforeCommit downMsg)
          (create_measurement (fun _ => AttemptOutcome.failBeforeCommit downMsg) mEx []).1
          = true
      ∧ (create_measurement (fun _ => AttemptOutcome.failBeforeCommit downMsg) mEx []).2.1
          = ([] : List Measurement)
      ∧ (create_measurement (fun _ => AttemptOutcome.failBeforeCommit downMsg) mEx []).2.2
          = Except.error ("Failed to create measurement after " ++ toString max_retries
              ++ " attempts: " ++ downMsg) :=
  ⟨(c7_create_measurement_retries (fun _ => AttemptOutcome.failBeforeCommit downMsg)
      mEx []).1,
    (c7_create_measurement_retries (fun _ => AttemptOutcome.failBeforeCommit downMsg)
      mEx []).2.1,
    (c7_create_measurement_retries (fun _ => AttemptOutcome.failBeforeCommit downMsg)
      mEx []).2.2.2.2.1 downMsg downMsg downMsg rfl rfl rfl,
    (c7_create_measurement_retries (fun _ => AttemptOutcome.failBeforeCommit downMsg)
      mEx []).2.2.2.1 downMsg downMsg downMsg rfl rfl rfl⟩

/-- C7 counterexample: when every attempt raises in db.refresh after its
db.commit succeeded, create_measurement surfaces the failure, yet three
committed copies of the row remain persisted, so the original claim that no
partially-applied state remains after retry exhaustion is false of the
program. -/
theorem c7_counterexample :
    (create_measurement (fun _ => AttemptOutcome.failAfterCommit downMsg) mEx []).2.2
        = Except.error ("Failed to create measurement after 3 attempts: db down")
      ∧ (create_measurement (fun _ => AttemptOutcome.failAfterCommit downMsg) mEx []).2.1
        = [mEx, mEx, mEx]
      ∧ [mEx, mEx, mEx] ≠ ([] : List Measurement) :=
  ⟨rfl, rfl, by decide⟩

/-- C6: get_history returns at most limit rows, each returned row has the
queried url and comes from the store, the rows are strictly descending by
timestamp whenever the stored timestamps are pairwise distinct, a url with
no stored rows gives the empty list (a normal, non-error outcome), and the
selection is complete: the result has min(limit, number of matching rows)
entries, and every matching stored row is either returned or displaced by a
full page of rows with timestamps at least as recent. -/
theorem c6_get_history (rows : List Measurement) (u : String) (limit : Nat)
    (hdist : rows.Pairwise (fun a b => a.timestamp ≠ b.timestamp)) :
    (get_history rows u limit).length ≤ limit
      ∧ (∀ m ∈ get_history rows u limit, m.url = u)
      ∧ (get_history rows u limit).Pairwise (fun a b => b.timestamp < a.timestamp)
      ∧ ((∀ m ∈ rows, m.url ≠ u) → get_history rows u limit = [])
      ∧ (get_history rows u limit).length
          = min limit (rows.filter (fun m => m.url == u)).length
      ∧ (∀ m ∈ get_history rows u limit, m ∈ rows)
      ∧ (∀ m ∈ rows, m.url = u →
          m ∈ get_history rows u limit
            ∨ ((get_history rows u limit).length = limit
                ∧ ∀ x ∈ get_history rows u limit, m.timestamp ≤ x.timestamp)) := by
  refine ⟨List.length_take_le _ _, ?_, ?_, ?_, ?_, ?_, ?_⟩
  · intro m hm
    have h1 : m ∈ List.insertionSort tsGe (rows.filter (fun m => m.url == u)) :=
      (List.take_sublist _ _).mem hm
    have h2 : m ∈ rows.filter (fun m => m.url == u) :=
      (List.perm_insertionSort tsGe _).mem_iff.1 h1
    exact eq_of_beq (List.mem_filter.1 h2).2
  · have hsorted : List.Sorted tsGe
        (List.insertionSort tsGe (rows.filter (fun m => m.url == u))) :=
      List.sorted_insertionSort tsGe _
    have hsortedTake : (get_history rows u limit).Pairwise tsGe :=
      List.Pairwise.sublist (List.take_sublist _ _) hsorted
    have hne1 : (rows.filter (fun m => m.url == u)).Pairwise
        (fun a b => a.timestamp ≠ b.timestamp) :=
      List.Pairwise.sublist (List.filter_sublist _) hdist
    have hne2 : (List.insertionSort tsGe (rows.filter (fun m => m.url == u))).Pairwise
        (fun a b => a.timestamp ≠ b.timestamp) :=
      (List.Perm.pairwise_iff (fun h => Ne.symm h) (List.perm_insertionSort tsGe _)).2 hne1
    have hne3 : (get_history rows u limit).Pairwise
        (fun a b => a.timestamp ≠ b.timestamp) :=
      List.Pairwise.sublist (List.take_sublist _ _) hne2
    exact (hsortedTake.and hne3).imp (fun hab => lt_of_le_of_ne hab.1 (Ne.symm hab.2))
  · intro h
    have hnil : rows.filter (fun m => m.url == u) = [] := by
      rw [List.filter_eq_nil_iff]
      intro m hm
      simp [h m hm]
    simp [get_history, hnil]
  · rw [get_history, List.length_take, (List.perm_insertionSort tsGe _).length_eq]
  · intro m hm
    have h1 : m ∈ List.insertionSort tsGe (rows.filter (fun m => m.url == u)) :=
      (List.take_sublist _ _).mem hm
    have h2 : m ∈ rows.filter (fun m => m.url == u) :=
      (List.perm_insertionSort tsGe _).mem_iff.1 h1
    exact (List.mem_filter.1 h2).1
  · intro m hm hurl
    have hf : m ∈ rows.filter (fun m => m.url == u) :=
      List.mem_filter.2 ⟨hm, by simp [hurl]⟩
    have hs : m ∈ List.insertionSort tsGe (rows.filter (fun m => m.url == u)) :=
      (List.perm_insertionSort tsGe _).mem_iff.2 hf
    have hsplit := List.take_append_drop limit
      (List.insertionSort tsGe (rows.filter (fun m => m.url == u)))
    have hs2 : m ∈ (List.insertionSort tsGe (rows.filter (fun m => m.url == u))).take limit
        ++ (List.insertionSort tsGe (rows.filter (fun m => m.url == u))).drop limit := by
      rw [hsplit]
      exact hs
    rcases List.mem_append.1 hs2 with hIn | hDrop
    · exact Or.inl hIn
    · refine Or.inr ⟨?_, ?_⟩
      · have hlen : limit
            < (List.insertionSort tsGe (rows.filter (fun m => m.url == u))).length := by
          by_contra hle
          push_neg at hle
          rw [List.drop_eq_nil_of_le hle] at hDrop
          exact absurd hDrop (List.not_mem_nil m)
        rw [get_history, List.length_take]
        omega
      · intro x hx
        have hpw : List.Pairwise tsGe
            (List.insertionSort tsGe (rows.filter (fun m => m.url == u))) :=
          List.sorted_insertionSort tsGe _
        rw [← hsplit] at hpw
        exact (List.pairwise_append.1 hpw).2.2 x hx m hDrop

theorem c6_witness :
    (get_history rowsEx exampleUrl 2).length ≤ 2
      ∧ (∀ m ∈ get_history rowsEx exampleUrl 2, m.url = exampleUrl)
      ∧ (get_history rowsEx exampleUrl 2).Pairwise (fun a b => b.timestamp < a.timestamp)
      ∧ ((∀ m ∈ rowsEx, m.url ≠ exampleUrl) → get_history rowsEx exampleUrl 2 = [])
      ∧ (get_history rowsEx exampleUrl 2).length
          = min 2 (rowsEx.filter (fun m => m.url == exampleUrl)).length
      ∧ (∀ m ∈ get_history rowsEx exampleUrl 2, m ∈ rowsEx)
      ∧ (∀ m ∈ rowsEx, m.url = exampleUrl →
          m ∈ get_history rowsEx exampleUrl 2
            ∨ ((get_history rowsEx exampleUrl 2).length = 2
                ∧ ∀ x ∈ get_history rowsEx exampleUrl 2, m.timestamp ≤ x.timestamp)) :=
  c6_get_history rowsEx exampleUrl 2 (by decide)

end WebEcoMeter
